import Mathlib

/-!
Verification of the synthetic-data dashboard (`src/app.py`).

The reproducible logic of the repository is two pure transformations:

* `generate_data` (app.py lines 47-61): a seeded deterministic generator that
  produces one observation per calendar day of a fixed range, with
  `数值A = sin(linspace(0, 4π, n)) * 50 + 100 + normal(0, 5)` noise,
  `数值B = 数值A * 0.8 + normal(0, 3)` noise, and a category drawn from the
  closed label set `{类型1, 类型2, 类型3}`;
* the filter pipeline (app.py lines 91-92): a boolean mask keeping the rows
  whose date lies in the inclusive picker range and whose category is in the
  multiselect set.

Calendar dates are embedded as civil day numbers (`dayNumber`), pandas
date comparison being exactly comparison of day numbers.  Numpy arrays are
embedded as index functions `Nat → ℝ` over `[0, n)`, vectorised arithmetic
becoming pointwise arithmetic, and the data frame as the list of its rows.
-/

/-- Modelled from the spec: the repository delegates pseudorandom number
generation to an external seeded generator (`np.random.seed` /
`np.random.normal` / `np.random.choice`), whose implementation is not part of
the repository.  Per the spec it is "the seeded generator in sequence order": a
deterministic word stream, a pure function of the seed and the draw position.
We model it as a 64-bit linear congruential stream. -/
def prngWord (seed : Nat) : Nat → Nat
  | 0 => (seed * 6364136223846793005 + 1442695040888963407) % 18446744073709551616
  | p + 1 =>
      (prngWord seed p * 6364136223846793005 + 1442695040888963407) % 18446744073709551616

/-- Modelled from the spec: the unit deviate the external generator yields at
stream position `p`, a zero-centred deterministic function of seed and
position.  The distributional content (normality of the draw) is a
probabilistic statement about the external library and is outside the
embedding; every claim below concerns only determinism, scaling and draw
order. -/
noncomputable def stdDeviate (seed p : Nat) : ℝ :=
  ((prngWord seed p : ℝ) - 9223372036854775808) / 9223372036854775808

/-- `np.random.normal(0, σ, _)` at stream position `p`: the zero-mean draw of
standard deviation `σ`, scaling the unit deviate. -/
noncomputable def normalDraw (seed : Nat) (σ : ℝ) (p : Nat) : ℝ :=
  σ * stdDeviate seed p

/-- The closed category label set of app.py line 59:
`['类型1', '类型2', '类型3']`. -/
def catLabels : List String := [ "类型1", "类型2", "类型3" ]

/-- `np.random.choice(['类型1','类型2','类型3'], _)` at stream position `p`:
the external generator's word mapped onto the three labels. -/
def catDraw (seed p : Nat) : String :=
  catLabels.get ⟨prngWord seed p % 3, Nat.mod_lt _ (by decide)⟩

/-- State of the seeded stream: the seed together with the number of draws
already consumed.  Threading it makes the draw order of app.py lines 52-59
explicit. -/
structure RngState where
  seed : Nat
  pos : Nat

/-- `np.random.normal(0, σ, n)`: an array of `n` zero-mean draws, consuming
the next `n` positions of the stream. -/
noncomputable def normals (σ : ℝ) (n : Nat) (st : RngState) : (Nat → ℝ) × RngState :=
  (fun i => normalDraw st.seed σ (st.pos + i), ⟨st.seed, st.pos + n⟩)

/-- `np.random.choice(['类型1','类型2','类型3'], n)`: an array of `n` category
draws, consuming the next `n` positions of the stream. -/
def choices (n : Nat) (st : RngState) : (Nat → String) × RngState :=
  (fun i => catDraw st.seed (st.pos + i), ⟨st.seed, st.pos + n⟩)

/-- Civil day number of the Gregorian date `y-m-d` (days since 0000-03-01,
the standard era-based formula).  `pd.date_range` day steps and `.dt.date`
comparisons are exactly arithmetic and order on these numbers. -/
def dayNumber (y m d : Nat) : Nat :=
  let yAdj := if m ≤ 2 then y - 1 else y
  let era := yAdj / 400
  let yoe := yAdj % 400
  let mp := (m + 9) % 12
  let doy := (153 * mp + 2) / 5 + d - 1
  let doe := yoe * 365 + yoe / 4 - yoe / 100 + doy
  era * 146097 + doe

/-- Number of days of `pd.date_range(start, end, freq='D')`: inclusive of both
ends, empty when the range is inverted. -/
def numDays (s e : Nat) : Nat := if s ≤ e then e - s + 1 else 0

/-- `np.linspace a b n` at index `i`: `n` evenly spaced points from `a` to `b`
inclusive (`a` alone when `n ≤ 1`). -/
noncomputable def linspace (a b : ℝ) (n : Nat) (i : Nat) : ℝ :=
  if n ≤ 1 then a else a + (b - a) * i / ((n : ℝ) - 1)

/-- One row of the generated frame: date (as civil day number), the two
numeric columns, and the category label. -/
structure Obs where
  date : Nat
  valueA : ℝ
  valueB : ℝ
  category : String
deriving Inhabited

/-- The body of `generate_data` (app.py lines 48-61), generalised over the
seed and the date range exactly as the spec's generator contract states it;
the repository instantiates it at seed 42 and 2023-01-01 .. 2023-06-30.
Columns are index functions over `[0, n)`; the frame is the list of rows.
The stream is consumed in source order: the `数值A` noise array (line 52),
then the `数值B` noise array (line 58), then the category array (line 59). -/
noncomputable def generate_data_core (seed s e : Nat) : List Obs :=
  let n := numDays s e
  let st0 : RngState := ⟨seed, 0⟩
  let base_values : Nat → ℝ := fun i => Real.sin (linspace 0 (4 * Real.pi) n i) * 50 + 100
  let na := normals 5 n st0
  let values : Nat → ℝ := fun i => base_values i + na.1 i
  let nb := normals 3 n na.2
  let cs := choices n nb.2
  (List.range n).map (fun i =>
    { date := s + i
      valueA := values i
      valueB := values i * 0.8 + nb.1 i
      category := cs.1 i })

/-- Day number of 2023-01-01, the fixed start of app.py line 50. -/
def startDate : Nat := dayNumber 2023 1 1

/-- Day number of 2023-06-30, the fixed end of app.py line 50. -/
def endDate : Nat := dayNumber 2023 6 30

/-- `generate_data` as the source has it: fixed seed 42, fixed range
2023-01-01 .. 2023-06-30 (app.py lines 49-50). -/
noncomputable def generate_data : List Obs := generate_data_core 42 startDate endDate

/-- The boolean mask of app.py lines 91-92 on one row: date within the
inclusive picker range and category in the multiselect set. -/
def obsMask (s e : Nat) (cats : List String) (o : Obs) : Bool :=
  (decide (s ≤ o.date) && decide (o.date ≤ e)) && decide (o.category ∈ cats)

/-- `filtered_df = df[mask & df['类别'].isin(category)]` (app.py lines 91-92):
the rows of `df` satisfying the mask, in order. -/
def filtered_df (df : List Obs) (s e : Nat) (cats : List String) : List Obs :=
  df.filter (obsMask s e cats)

/-- The script state around lines 63-92: the cached source frame `df` and the
derived view `filtered_df`. -/
structure AppState where
  df : List Obs
  filtered : List Obs

/-- Recomputing the derived view (app.py line 92): builds a new frame from
`df` and rebinds `filtered`; `df` itself is only read. -/
def applyFilter (st : AppState) (s e : Nat) (cats : List String) : AppState :=
  { df := st.df, filtered := filtered_df st.df s e cats }

/-- The observation the generator places at index `i`: date `s + i`, value A
from the formula plus the `i`-th noise draw, value B from value A plus the
`(n+i)`-th draw, category from the `(2n+i)`-th draw. -/
noncomputable def obsAt (seed s e i : Nat) : Obs :=
  let n := numDays s e
  let vA := Real.sin (linspace 0 (4 * Real.pi) n i) * 50 + 100 + normalDraw seed 5 i
  { date := s + i
    valueA := vA
    valueB := vA * 0.8 + normalDraw seed 3 (n + i)
    category := catDraw seed (2 * n + i) }

theorem getD_map_range {α : Type} (f : Nat → α) (n i : Nat) (h : i < n) (d : α) :
    (((List.range n).map f).getD i d) = f i := by
  simp [List.getD_eq_getElem?_getD, List.getElem?_map, List.getElem?_range h]

theorem generate_eq_map (seed s e : Nat) :
    generate_data_core seed s e = (List.range (numDays s e)).map (obsAt seed s e) := by
  unfold generate_data_core obsAt normals choices
  refine List.map_congr_left (fun i _ => ?_)
  simp only [normalDraw]
  norm_num [two_mul]

theorem length_generate (seed s e : Nat) :
    (generate_data_core seed s e).length = numDays s e := by
  rw [generate_eq_map]
  simp

theorem generate_getD (seed s e i : Nat) (h : i < numDays s e) :
    (generate_data_core seed s e).getD i default = obsAt seed s e i := by
  rw [generate_eq_map]
  exact getD_map_range _ _ _ h _

theorem catDraw_mem (seed p : Nat) : catDraw seed p ∈ catLabels :=
  List.get_mem _ _ _

theorem mem_filtered (df : List Obs) (s e : Nat) (cats : List String) (o : Obs) :
    o ∈ filtered_df df s e cats ↔ o ∈ df ∧ (s ≤ o.date ∧ o.date ≤ e ∧ o.category ∈ cats) := by
  simp [filtered_df, obsMask, List.mem_filter, and_assoc]

/-- C1: for every input observation sequence, date range and accepted-category
set, the filter output contains exactly the observations whose date lies in
the inclusive range and whose category is accepted (soundness and
completeness), and the output is a sublist of the input, so relative order is
preserved (stability). -/
theorem filterPipeline_sound_complete_stable (df : List Obs) (s e : Nat) (cats : List String) :
    (∀ o, o ∈ filtered_df df s e cats ↔
        o ∈ df ∧ (s ≤ o.date ∧ o.date ≤ e ∧ o.category ∈ cats))
    ∧ List.Sublist (filtered_df df s e cats) df :=
  ⟨fun o => mem_filtered df s e cats o, List.filter_sublist df⟩

/-- C2: two invocations of the generator with the same seed and the same date
range produce sequences of equal length that agree element by element on
dates, valueA, valueB and category. -/
theorem generator_deterministic_same_seed (seed s e : Nat) (run1 run2 : List Obs)
    (h1 : run1 = generate_data_core seed s e) (h2 : run2 = generate_data_core seed s e) :
    run1.length = run2.length ∧
    ∀ i, i < run1.length →
      (run1.getD i default).date = (run2.getD i default).date ∧
      (run1.getD i default).valueA = (run2.getD i default).valueA ∧
      (run1.getD i default).valueB = (run2.getD i default).valueB ∧
      (run1.getD i default).category = (run2.getD i default).category := by
  subst h1
  subst h2
  exact ⟨rfl, fun i _ => ⟨rfl, rfl, rfl, rfl⟩⟩

theorem generator_deterministic_same_seed_witness :
    (generate_data_core 42 0 3 = generate_data_core 42 0 3) ∧
    ((generate_data_core 42 0 3).length = (generate_data_core 42 0 3).length ∧
     ∀ i, i < (generate_data_core 42 0 3).length →
       ((generate_data_core 42 0 3).getD i default).date
          = ((generate_data_core 42 0 3).getD i default).date ∧
       ((generate_data_core 42 0 3).getD i default).valueA
          = ((generate_data_core 42 0 3).getD i default).valueA ∧
       ((generate_data_core 42 0 3).getD i default).valueB
          = ((generate_data_core 42 0 3).getD i default).valueB ∧
       ((generate_data_core 42 0 3).getD i default).category
          = ((generate_data_core 42 0 3).getD i default).category) :=
  ⟨rfl, generator_deterministic_same_seed 42 0 3
    (generate_data_core 42 0 3) (generate_data_core 42 0 3) rfl rfl⟩

/-- C3: the i-th generated valueA equals
`50 * sin(4π i / (n-1)) + 100 + noise_i`, where `noise_i` is the i-th
zero-mean draw of standard deviation 5 from the seeded stream, taken in
sequence order (position i). -/
theorem valueA_formula (seed s e i : Nat) (hn : 1 < numDays s e) (hi : i < numDays s e) :
    ((generate_data_core seed s e).getD i default).valueA
      = 50 * Real.sin (4 * Real.pi * i / ((numDays s e : ℝ) - 1)) + 100
        + normalDraw seed 5 i := by
  rw [generate_getD seed s e i hi]
  simp only [obsAt, linspace, if_neg (by omega : ¬ numDays s e ≤ 1)]
  ring_nf

theorem valueA_formula_witness :
    1 < numDays 0 1 ∧ 0 < numDays 0 1 ∧
    ((generate_data_core 7 0 1).getD 0 default).valueA
      = 50 * Real.sin (4 * Real.pi * ((0 : Nat) : ℝ) / ((numDays 0 1 : ℝ) - 1)) + 100
        + normalDraw 7 5 0 :=
  ⟨by decide, by decide, valueA_formula 7 0 1 0 (by decide) (by decide)⟩

/-- C4: the i-th generated valueB equals `0.8 * valueA(i) + noise_i'` with the
valueB noise drawn at stream position `n + i` (after all n valueA draws), and
the i-th category drawn at stream position `2n + i` (after all value noise):
the stream is consumed in the exact order valueA noise, valueB noise,
category draws. -/
theorem valueB_formula_draw_order (seed s e i : Nat) (hi : i < numDays s e) :
    ((generate_data_core seed s e).getD i default).valueB
      = 0.8 * ((generate_data_core seed s e).getD i default).valueA
        + normalDraw seed 3 (numDays s e + i)
    ∧ ((generate_data_core seed s e).getD i default).category
      = catDraw seed (2 * numDays s e + i) := by
  rw [generate_getD seed s e i hi]
  simp only [obsAt]
  exact ⟨by ring, trivial⟩

theorem valueB_formula_draw_order_witness :
    0 < numDays 0 1 ∧
    (((generate_data_core 7 0 1).getD 0 default).valueB
      = 0.8 * ((generate_data_core 7 0 1).getD 0 default).valueA
        + normalDraw 7 3 (numDays 0 1 + 0)
    ∧ ((generate_data_core 7 0 1).getD 0 default).category
      = catDraw 7 (2 * numDays 0 1 + 0)) :=
  ⟨by decide, valueB_formula_draw_order 7 0 1 0 (by decide)⟩

/-- C5: for a non-inverted range the generated sequence has exactly
`(end - start) + 1` observations with strictly increasing dates (one per
calendar day), and the repository's fixed range 2023-01-01 .. 2023-06-30
yields exactly 181 observations. -/
theorem generated_length_and_dates (seed s e : Nat) (hse : s ≤ e) :
    (generate_data_core seed s e).length = e - s + 1
    ∧ (∀ i, i < numDays s e →
        ((generate_data_core seed s e).getD i default).date = s + i)
    ∧ List.Pairwise (fun a b => a.date < b.date) (generate_data_core seed s e)
    ∧ generate_data.length = 181 := by
  refine ⟨?_, ?_, ?_, ?_⟩
  · rw [length_generate]
    simp [numDays, hse]
  · intro i hi
    rw [generate_getD seed s e i hi]
    simp [obsAt]
  · rw [generate_eq_map]
    refine List.Pairwise.map _ (fun a b hab => ?_) (List.pairwise_lt_range _)
    simpa [obsAt] using hab
  · show (generate_data_core 42 startDate endDate).length = 181
    rw [length_generate]
    decide

theorem generated_length_and_dates_witness :
    (0 : Nat) ≤ 4 ∧
    ((generate_data_core 9 0 4).length = 4 - 0 + 1
    ∧ (∀ i, i < numDays 0 4 →
        ((generate_data_core 9 0 4).getD i default).date = 0 + i)
    ∧ List.Pairwise (fun a b => a.date < b.date) (generate_data_core 9 0 4)
    ∧ generate_data.length = 181) :=
  ⟨by decide, generated_length_and_dates 9 0 4 (by decide)⟩

/-- C6: every observation of any generated sequence carries a category from
the closed three-label set; no other label ever appears. -/
theorem generated_category_closed (seed s e : Nat) :
    List.Forall (fun o => o.category ∈ catLabels) (generate_data_core seed s e) := by
  rw [List.forall_iff_forall_mem, generate_eq_map]
  intro o ho
  obtain ⟨i, hi, rfl⟩ := List.mem_map.1 ho
  simpa [obsAt] using catDraw_mem seed (2 * numDays s e + i)

/-- C7: the filter returns the empty sequence (it is total, so no error is
raised) whenever the accepted-category set is empty or the range is inverted
(`end < start`). -/
theorem filter_empty_boundaries (df : List Obs) (s e : Nat) (cats : List String)
    (h : cats = [] ∨ e < s) :
    filtered_df df s e cats = [] := by
  rcases h with h | h
  · subst h
    simp [filtered_df, obsMask]
  · rw [filtered_df, List.filter_eq_nil_iff]
    intro o _
    simp only [obsMask, Bool.and_eq_true, decide_eq_true_eq, not_and]
    intro hd
    omega

/-- The concrete row used to instantiate the boundary-policy theorem. -/
noncomputable def sampleObs : Obs :=
  { date := 4, valueA := 0, valueB := 0, category := "类型1" }

theorem filter_empty_boundaries_witness :
    (( [ "类型1" ] : List String) = [] ∨ (3 : Nat) < 5) ∧
    filtered_df [ sampleObs ] 5 3 [ "类型1" ] = [] :=
  ⟨Or.inr (by decide), filter_empty_boundaries [ sampleObs ] 5 3 [ "类型1" ] (Or.inr (by decide))⟩

/-- C8: on the repository's fixed inputs (seed 42, range 2023-01-01 ..
2023-06-30, all three categories accepted, date filter the full range) the
filter is the identity: the filtered frame equals the generated frame and has
length 181. -/
theorem endToEnd_full_filter_identity :
    filtered_df generate_data startDate endDate catLabels = generate_data
    ∧ (filtered_df generate_data startDate endDate catLabels).length = 181 := by
  have hid : filtered_df generate_data startDate endDate catLabels = generate_data := by
    rw [filtered_df]
    apply List.filter_eq_self.2
    intro o ho
    rw [show generate_data = generate_data_core 42 startDate endDate from rfl,
        generate_eq_map] at ho
    obtain ⟨i, hi, rfl⟩ := List.mem_map.1 ho
    have hi2 : i < numDays startDate endDate := List.mem_range.1 hi
    have hnum : numDays startDate endDate = 181 := by decide
    have hse : startDate + 180 = endDate := by decide
    simp only [obsMask, obsAt, Bool.and_eq_true, decide_eq_true_eq]
    exact ⟨⟨Nat.le_add_right _ _, by omega⟩, catDraw_mem _ _⟩
  refine ⟨hid, ?_⟩
  rw [hid, show generate_data = generate_data_core 42 startDate endDate from rfl,
      length_generate]
  decide

/-- C9: recomputing the filtered view never mutates the source frame: the
`df` component of the script state after the filter step equals the one
before it. -/
theorem filter_preserves_source (st : AppState) (s e : Nat) (cats : List String) :
    (applyFilter st s e cats).df = st.df := rfl

/-- C10: the filter is idempotent: filtering its own output again with the
same date range and category set returns that output unchanged. -/
theorem filter_idempotent (df : List Obs) (s e : Nat) (cats : List String) :
    filtered_df (filtered_df df s e cats) s e cats = filtered_df df s e cats := by
  unfold filtered_df
  simp [List.filter_filter]
